import Mathlib

/-!
Shallow embedding of the controlled/uncontrolled state reconciliation core of
the tanstack-table-adapter repository:

* `extractFeatureFlags` (src/utils.ts lines 186-238): merges built-in feature
  defaults, the grouped `features` object (applied with `Object.assign`
  presence semantics) and the twelve legacy `enableX` flat props.
* `createControlledHandler` (src/utils.ts lines 165-183): the per-slice
  dispatch factory that resolves a value-or-function updater against the
  current value and routes the result to the external callback or to the
  internal React state setter.
* `useTableState` (src/hooks.ts lines 30-284): the initial-value resolution
  (`props.state?.x ?? props.x ?? default`), the handler extraction
  (`props.onStateChange?.onXChange ?? props.onXChange`) and the
  controlled-slice classification (`!!onXChange`).
* `useServerSideData` (src/hooks.ts lines 299-383): the fetch step with its
  try/catch/finally error handling.

JavaScript `undefined`/`null` are modelled as `Option.none`; a key that may be
absent from an object (relevant for `Object.assign` semantics, where presence
of the key decides the overwrite) is modelled as an outer `Option` layer, so
`Option (Option Bool)` reads: key absent / key present with value undefined /
key present with a boolean. A thrown exception is modelled with `Except`.
-/

namespace TableAdapter

/-! ### Feature flag resolution (src/utils.ts, extractFeatureFlags) -/

/-- The fifteen feature names of `TableFeatures` (src/types.ts lines 43-59). -/
inductive FeatureField where
  | pagination
  | sorting
  | multiSort
  | columnFilters
  | globalFilter
  | columnResizing
  | rowSelection
  | expanding
  | columnOrdering
  | pinning
  | stickyHeader
  | grouping
  | formMode
  | virtualization
  | sortingRemoval
deriving DecidableEq

/-- The resolved feature record. Each field is `Option Bool` because a grouped
key explicitly set to `undefined` can leave the resolved flag `undefined`. -/
structure TableFeatures where
  pagination : Option Bool
  sorting : Option Bool
  multiSort : Option Bool
  columnFilters : Option Bool
  globalFilter : Option Bool
  columnResizing : Option Bool
  rowSelection : Option Bool
  expanding : Option Bool
  columnOrdering : Option Bool
  pinning : Option Bool
  stickyHeader : Option Bool
  grouping : Option Bool
  formMode : Option Bool
  virtualization : Option Bool
  sortingRemoval : Option Bool
deriving DecidableEq

/-- Field lookup on a resolved feature record. -/
def TableFeatures.get (f : TableFeatures) : FeatureField → Option Bool
  | .pagination => f.pagination
  | .sorting => f.sorting
  | .multiSort => f.multiSort
  | .columnFilters => f.columnFilters
  | .globalFilter => f.globalFilter
  | .columnResizing => f.columnResizing
  | .rowSelection => f.rowSelection
  | .expanding => f.expanding
  | .columnOrdering => f.columnOrdering
  | .pinning => f.pinning
  | .stickyHeader => f.stickyHeader
  | .grouping => f.grouping
  | .formMode => f.formMode
  | .virtualization => f.virtualization
  | .sortingRemoval => f.sortingRemoval

/-- The built-in defaults (src/utils.ts lines 190-206). -/
def defaultFeatures : TableFeatures where
  pagination := some true
  sorting := some true
  multiSort := some true
  columnFilters := some false
  globalFilter := some false
  columnResizing := some false
  rowSelection := some false
  expanding := some false
  columnOrdering := some false
  pinning := some false
  stickyHeader := some false
  grouping := some false
  formMode := some false
  virtualization := some false
  sortingRemoval := some true

/-- The caller-supplied grouped `features` object. `none` means the key is
absent; `some none` means the key is present with value `undefined`;
`some (some b)` means the key holds the boolean `b`. -/
structure GroupedFeatures where
  pagination : Option (Option Bool) := none
  sorting : Option (Option Bool) := none
  multiSort : Option (Option Bool) := none
  columnFilters : Option (Option Bool) := none
  globalFilter : Option (Option Bool) := none
  columnResizing : Option (Option Bool) := none
  rowSelection : Option (Option Bool) := none
  expanding : Option (Option Bool) := none
  columnOrdering : Option (Option Bool) := none
  pinning : Option (Option Bool) := none
  stickyHeader : Option (Option Bool) := none
  grouping : Option (Option Bool) := none
  formMode : Option (Option Bool) := none
  virtualization : Option (Option Bool) := none
  sortingRemoval : Option (Option Bool) := none
deriving DecidableEq

/-- Field lookup on the grouped features object. -/
def GroupedFeatures.get (g : GroupedFeatures) : FeatureField → Option (Option Bool)
  | .pagination => g.pagination
  | .sorting => g.sorting
  | .multiSort => g.multiSort
  | .columnFilters => g.columnFilters
  | .globalFilter => g.globalFilter
  | .columnResizing => g.columnResizing
  | .rowSelection => g.rowSelection
  | .expanding => g.expanding
  | .columnOrdering => g.columnOrdering
  | .pinning => g.pinning
  | .stickyHeader => g.stickyHeader
  | .grouping => g.grouping
  | .formMode => g.formMode
  | .virtualization => g.virtualization
  | .sortingRemoval => g.sortingRemoval

/-- One field of an `Object.assign(target, source)` step: if the source key is
present (even with an `undefined` value) it overwrites the target field. -/
def assignField (cur : Option Bool) : Option (Option Bool) → Option Bool
  | none => cur
  | some v => v

/-- `Object.assign(features, props.features)` (src/utils.ts line 210),
field by field. -/
def applyGrouped (f : TableFeatures) (g : GroupedFeatures) : TableFeatures where
  pagination := assignField f.pagination g.pagination
  sorting := assignField f.sorting g.sorting
  multiSort := assignField f.multiSort g.multiSort
  columnFilters := assignField f.columnFilters g.columnFilters
  globalFilter := assignField f.globalFilter g.globalFilter
  columnResizing := assignField f.columnResizing g.columnResizing
  rowSelection := assignField f.rowSelection g.rowSelection
  expanding := assignField f.expanding g.expanding
  columnOrdering := assignField f.columnOrdering g.columnOrdering
  pinning := assignField f.pinning g.pinning
  stickyHeader := assignField f.stickyHeader g.stickyHeader
  grouping := assignField f.grouping g.grouping
  formMode := assignField f.formMode g.formMode
  virtualization := assignField f.virtualization g.virtualization
  sortingRemoval := assignField f.sortingRemoval g.sortingRemoval

/-- The configuration props consulted by `extractFeatureFlags`: the grouped
`features` object (possibly absent) and the twelve legacy flat props.
`columnOrdering`, `formMode` and `virtualization` have no legacy prop. -/
structure FeatureProps where
  features : Option GroupedFeatures := none
  enablePagination : Option Bool := none
  enableSorting : Option Bool := none
  enableMultiSort : Option Bool := none
  enableColumnFilters : Option Bool := none
  enableGlobalFilter : Option Bool := none
  enableColumnResizing : Option Bool := none
  enableRowSelection : Option Bool := none
  enableExpanding : Option Bool := none
  enablePinning : Option Bool := none
  enableStickyHeader : Option Bool := none
  enableGrouping : Option Bool := none
  enableSortingRemoval : Option Bool := none
deriving DecidableEq

/-- The legacy flat prop backing a feature field; `none` for the three fields
(`columnOrdering`, `formMode`, `virtualization`) that have no legacy prop. -/
def FeatureProps.legacyGet (p : FeatureProps) : FeatureField → Option Bool
  | .pagination => p.enablePagination
  | .sorting => p.enableSorting
  | .multiSort => p.enableMultiSort
  | .columnFilters => p.enableColumnFilters
  | .globalFilter => p.enableGlobalFilter
  | .columnResizing => p.enableColumnResizing
  | .rowSelection => p.enableRowSelection
  | .expanding => p.enableExpanding
  | .columnOrdering => none
  | .pinning => p.enablePinning
  | .stickyHeader => p.enableStickyHeader
  | .grouping => p.enableGrouping
  | .formMode => none
  | .virtualization => none
  | .sortingRemoval => p.enableSortingRemoval

/-- One legacy override step (src/utils.ts lines 214-235):
`if (props.enableX !== undefined) features.x = props.enableX`. -/
def legacyOverride (cur : Option Bool) : Option Bool → Option Bool
  | none => cur
  | some b => some b

/-- `extractFeatureFlags` (src/utils.ts lines 186-238): start from the
defaults, `Object.assign` the grouped object if provided, then apply the
twelve legacy overrides. `columnOrdering`, `formMode` and `virtualization`
have no legacy override step. -/
def extractFeatureFlags (p : FeatureProps) : TableFeatures :=
  let f1 := match p.features with
    | none => defaultFeatures
    | some g => applyGrouped defaultFeatures g
  { pagination := legacyOverride f1.pagination p.enablePagination
    sorting := legacyOverride f1.sorting p.enableSorting
    multiSort := legacyOverride f1.multiSort p.enableMultiSort
    columnFilters := legacyOverride f1.columnFilters p.enableColumnFilters
    globalFilter := legacyOverride f1.globalFilter p.enableGlobalFilter
    columnResizing := legacyOverride f1.columnResizing p.enableColumnResizing
    rowSelection := legacyOverride f1.rowSelection p.enableRowSelection
    expanding := legacyOverride f1.expanding p.enableExpanding
    columnOrdering := f1.columnOrdering
    pinning := legacyOverride f1.pinning p.enablePinning
    stickyHeader := legacyOverride f1.stickyHeader p.enableStickyHeader
    grouping := legacyOverride f1.grouping p.enableGrouping
    formMode := f1.formMode
    virtualization := f1.virtualization
    sortingRemoval := legacyOverride f1.sortingRemoval p.enableSortingRemoval }

/-- Concrete configuration: grouped `sorting: false` together with legacy
`enableSorting: true`. -/
def legacySortingProps : FeatureProps :=
  { features := some { sorting := some (some false) }, enableSorting := some true }

/-- Concrete configuration: empty grouped object and legacy
`enablePagination: false`. -/
def legacyPaginationProps : FeatureProps :=
  { features := some {}, enablePagination := some false }

/-- Concrete configuration with every legacy prop set, and a grouped object
that contradicts each of them. -/
def allLegacyProps : FeatureProps where
  features := some
    { pagination := some (some true), sorting := some (some false)
      multiSort := some (some true), columnFilters := some (some false)
      globalFilter := some (some false), columnResizing := some (some false)
      rowSelection := some (some false), expanding := some (some false)
      columnOrdering := some (some true), pinning := some (some false)
      stickyHeader := some (some false), grouping := some (some false)
      formMode := some (some true), virtualization := some (some true)
      sortingRemoval := some (some true) }
  enablePagination := some false
  enableSorting := some true
  enableMultiSort := some false
  enableColumnFilters := some true
  enableGlobalFilter := some true
  enableColumnResizing := some true
  enableRowSelection := some true
  enableExpanding := some true
  enablePinning := some true
  enableStickyHeader := some true
  enableGrouping := some true
  enableSortingRemoval := some false

/-- Concrete grouped features object with only `rowSelection: true`. -/
def rowSelectionGrouped : GroupedFeatures :=
  { rowSelection := some (some true) }

/-- Concrete configuration: grouped `rowSelection: true`, no legacy props. -/
def groupedRowSelectionProps : FeatureProps :=
  { features := some rowSelectionGrouped }

/-- Concrete configuration with no grouped object and no legacy props. -/
def emptyFeatureProps : FeatureProps :=
  {}

/-- Concrete configuration: grouped `pagination` key present with value
`undefined`, no legacy props. -/
def groupedUndefinedPaginationProps : FeatureProps :=
  { features := some { pagination := some none } }

/-- Concrete configuration: grouped `pagination` key present with value
`undefined`, rescued by legacy `enablePagination: true`. -/
def rescuedPaginationProps : FeatureProps :=
  { features := some { pagination := some none }, enablePagination := some true }

/-! ### Updater dispatch (src/utils.ts, createControlledHandler) -/

/-- A dispatch argument: either a literal next value or a function from the
previous value to the next value (src/utils.ts line 171,
`updater: T | ((prev: T) => T)`). The function case returns `Except` to model
an updater that may throw. -/
inductive Updater (ε T : Type) where
  | value : T → Updater ε T
  | fn : (T → Except ε T) → Updater ε T

/-- Resolution of an updater against the current value (src/utils.ts lines
172-175): a callable updater is invoked with the current value, any other
updater is itself the next value. -/
def resolveUpdater : Updater ε T → T → Except ε T
  | .value v, _ => .ok v
  | .fn f, cur => f cur

/-- The observable effect of one dispatch call: the values passed to the
external change callback and the values written to the internal React state
setter, each in call order. -/
structure DispatchEffects (T : Type) where
  externalCalls : List T
  internalWrites : List T
deriving DecidableEq

/-- `createControlledHandler` (src/utils.ts lines 165-183): resolve the
updater against `getCurrentValue()`, then
`if (isControlled && externalHandler) externalHandler(newValue) else
internalSetter(newValue)`. `hasExternalHandler` models the truthiness of the
`externalHandler` argument; a throwing updater propagates as `.error`. -/
def createControlledHandler (isControlled hasExternalHandler : Bool)
    (getCurrentValue : T) (u : Updater ε T) : Except ε (DispatchEffects T) :=
  match resolveUpdater u getCurrentValue with
  | .error e => .error e
  | .ok newValue =>
    if isControlled && hasExternalHandler then .ok ⟨[newValue], []⟩
    else .ok ⟨[], [newValue]⟩

/-- The current authoritative value of a slice (src/hooks.ts lines 115-142):
the props-derived value when the slice is controlled, the internal store
value otherwise. -/
def currentSliceValue (isControlled : Bool) (propsValue storeValue : T) : T :=
  if isControlled then propsValue else storeValue

/-- One dispatch as wired by `useTableState` (src/hooks.ts lines 145-257):
`createControlledHandler` applied to the slice's current authoritative
value. -/
def hookDispatch (isControlled hasExternalHandler : Bool)
    (propsValue storeValue : T) (u : Updater ε T) : Except ε (DispatchEffects T) :=
  createControlledHandler isControlled hasExternalHandler
    (currentSliceValue isControlled propsValue storeValue) u

/-- Application of the internal-setter writes of one dispatch to the slice
store: the last write wins; no write leaves the store unchanged. -/
def applyWrites (store : T) (writes : List T) : T :=
  writes.foldl (fun _ w => w) store

/-- One dispatch run against a concrete store value. Returns the store value
after the dispatch, the external callback invocations, and the propagated
exception if the updater threw (in which case the store is untouched,
because the write in the source happens only after the updater returned). -/
def runDispatch (isControlled hasExternalHandler : Bool)
    (propsValue storeValue : T) (u : Updater ε T) : T × List T × Option ε :=
  match hookDispatch isControlled hasExternalHandler propsValue storeValue u with
  | .error e => (storeValue, [], some e)
  | .ok eff => (applyWrites storeValue eff.internalWrites, eff.externalCalls, none)

/-- A sequence of dispatches run left to right, threading the store value and
collecting every external callback invocation. -/
def runDispatches (isControlled hasExternalHandler : Bool) (propsValue : T) :
    T → List (Updater ε T) → T × List T
  | store, [] => (store, [])
  | store, u :: us =>
    let r := runDispatch isControlled hasExternalHandler propsValue store u
    let rest := runDispatches isControlled hasExternalHandler propsValue r.1 us
    (rest.1, r.2.1 ++ rest.2)

/-! ### Ownership classification (src/hooks.ts lines 77-112) -/

/-- The ten state slices managed by `useTableState`. -/
inductive SliceName where
  | pagination
  | sorting
  | columnFilters
  | globalFilter
  | columnVisibility
  | rowSelection
  | expanded
  | columnOrder
  | columnPinning
  | grouping
deriving DecidableEq

/-- The grouped `onStateChange` object (src/types.ts, `TableStateHandlers`):
one optional change callback per slice. Callbacks are modelled by an identity
of type `κ` so that which callback ends up used is observable. -/
structure TableStateHandlers (κ : Type) where
  onPaginationChange : Option κ := none
  onSortingChange : Option κ := none
  onColumnFiltersChange : Option κ := none
  onGlobalFilterChange : Option κ := none
  onColumnVisibilityChange : Option κ := none
  onRowSelectionChange : Option κ := none
  onExpandedChange : Option κ := none
  onColumnOrderChange : Option κ := none
  onColumnPinningChange : Option κ := none
  onGroupingChange : Option κ := none

/-- Field lookup on the grouped handlers object. -/
def TableStateHandlers.get (h : TableStateHandlers κ) : SliceName → Option κ
  | .pagination => h.onPaginationChange
  | .sorting => h.onSortingChange
  | .columnFilters => h.onColumnFiltersChange
  | .globalFilter => h.onGlobalFilterChange
  | .columnVisibility => h.onColumnVisibilityChange
  | .rowSelection => h.onRowSelectionChange
  | .expanded => h.onExpandedChange
  | .columnOrder => h.onColumnOrderChange
  | .columnPinning => h.onColumnPinningChange
  | .grouping => h.onGroupingChange

/-- The callback-bearing props of `useTableState`: the optional grouped
`onStateChange` object and the ten legacy flat callback props. -/
structure HandlerProps (κ : Type) where
  onStateChange : Option (TableStateHandlers κ) := none
  onPaginationChange : Option κ := none
  onSortingChange : Option κ := none
  onColumnFiltersChange : Option κ := none
  onGlobalFilterChange : Option κ := none
  onColumnVisibilityChange : Option κ := none
  onRowSelectionChange : Option κ := none
  onExpandedChange : Option κ := none
  onColumnOrderChange : Option κ := none
  onColumnPinningChange : Option κ := none
  onGroupingChange : Option κ := none

/-- The legacy flat callback prop for a slice. -/
def HandlerProps.legacyGet (p : HandlerProps κ) : SliceName → Option κ
  | .pagination => p.onPaginationChange
  | .sorting => p.onSortingChange
  | .columnFilters => p.onColumnFiltersChange
  | .globalFilter => p.onGlobalFilterChange
  | .columnVisibility => p.onColumnVisibilityChange
  | .rowSelection => p.onRowSelectionChange
  | .expanded => p.onExpandedChange
  | .columnOrder => p.onColumnOrderChange
  | .columnPinning => p.onColumnPinningChange
  | .grouping => p.onGroupingChange

/-- The grouped callback for a slice, `props.onStateChange?.onXChange`. -/
def groupedHandler (p : HandlerProps κ) (s : SliceName) : Option κ :=
  p.onStateChange.bind fun h => h.get s

/-- The extracted change handler for a slice (src/hooks.ts lines 78-98):
`props.onStateChange?.onXChange ?? props.onXChange`. -/
def resolvedHandler (p : HandlerProps κ) (s : SliceName) : Option κ :=
  (groupedHandler p s).orElse fun _ => p.legacyGet s

/-- The controlled/uncontrolled classification (src/hooks.ts lines 101-112):
`!!onXChange` on the extracted handler. -/
def isControlledSlice (p : HandlerProps κ) (s : SliceName) : Bool :=
  (resolvedHandler p s).isSome

/-- Concrete handler props with both a grouped (identity 1) and a legacy
(identity 2) sorting callback. -/
def bothSortingHandlers : HandlerProps Nat :=
  { onStateChange := some { onSortingChange := some 1 }, onSortingChange := some 2 }

/-- Concrete handler props with only a legacy sorting callback. -/
def legacyOnlySortingHandlers : HandlerProps Nat :=
  { onSortingChange := some 2 }

/-! ### Initial slice values (src/hooks.ts lines 33-52) -/

/-- One sorting entry, `{id, desc}`. -/
structure SortEntry where
  id : String
  desc : Bool
deriving DecidableEq

/-- One column filter entry, `{id, value}`; the filter value is modelled as a
string. -/
structure ColumnFilterEntry where
  id : String
  value : String
deriving DecidableEq

/-- The column pinning value, `{left, right}`. -/
structure ColumnPinningValue where
  left : List String := []
  right : List String := []
deriving DecidableEq

/-- The `pagination` field inside the grouped `state` prop, with its two
optional sub-fields. -/
structure GroupedPagination where
  pageIndex : Option Nat := none
  pageSize : Option Nat := none
deriving DecidableEq

/-- The grouped `state` prop of `useTableState`: one optional initial value
per slice. Record-typed slice values (`columnVisibility`, `rowSelection`,
`expanded`) are modelled as association lists. -/
structure TableStateProp where
  pagination : Option GroupedPagination := none
  sorting : Option (List SortEntry) := none
  columnFilters : Option (List ColumnFilterEntry) := none
  globalFilter : Option String := none
  columnVisibility : Option (List (String × Bool)) := none
  rowSelection : Option (List (String × Bool)) := none
  expanded : Option (List (String × Bool)) := none
  columnOrder : Option (List String) := none
  columnPinning : Option ColumnPinningValue := none
  grouping : Option (List String) := none
deriving DecidableEq

/-- The value-bearing props of `useTableState`: the optional grouped `state`
object and the legacy flat value props. -/
structure StateProps where
  state : Option TableStateProp := none
  pageSize : Option Nat := none
  pageIndex : Option Nat := none
  sorting : Option (List SortEntry) := none
  columnFilters : Option (List ColumnFilterEntry) := none
  globalFilter : Option String := none
  columnVisibility : Option (List (String × Bool)) := none
  rowSelection : Option (List (String × Bool)) := none
  expanded : Option (List (String × Bool)) := none
  columnOrder : Option (List String) := none
  columnPinning : Option ColumnPinningValue := none
  grouping : Option (List String) := none
deriving DecidableEq

/-- One `a ?? b ?? d` chain (src/hooks.ts lines 34-52): the grouped source
when not nullish, else the legacy source when not nullish, else the built-in
default. -/
def resolveInitial (grouped legacy : Option α) (deflt : α) : α :=
  ((grouped.orElse fun _ => legacy).getD deflt)

/-- The resolved initial value of every slice. -/
structure InitialTableState where
  pageSize : Nat
  pageIndex : Nat
  sorting : List SortEntry
  columnFilters : List ColumnFilterEntry
  globalFilter : String
  columnVisibility : List (String × Bool)
  rowSelection : List (String × Bool)
  expanded : List (String × Bool)
  columnOrder : List String
  columnPinning : ColumnPinningValue
  grouping : List String
deriving DecidableEq

/-- The initial-value block of `useTableState` (src/hooks.ts lines 33-52):
for each slice, `props.state?.x ?? props.x ?? default`, with
`props.state?.pagination?.pageSize ?? props.pageSize ?? 10` and
`props.state?.pagination?.pageIndex ?? props.pageIndex ?? 0` for the two
pagination sub-fields. -/
def initialTableState (p : StateProps) : InitialTableState where
  pageSize :=
    resolveInitial ((p.state.bind TableStateProp.pagination).bind GroupedPagination.pageSize)
      p.pageSize 10
  pageIndex :=
    resolveInitial ((p.state.bind TableStateProp.pagination).bind GroupedPagination.pageIndex)
      p.pageIndex 0
  sorting := resolveInitial (p.state.bind TableStateProp.sorting) p.sorting []
  columnFilters := resolveInitial (p.state.bind TableStateProp.columnFilters) p.columnFilters []
  globalFilter := resolveInitial (p.state.bind TableStateProp.globalFilter) p.globalFilter ""
  columnVisibility :=
    resolveInitial (p.state.bind TableStateProp.columnVisibility) p.columnVisibility []
  rowSelection := resolveInitial (p.state.bind TableStateProp.rowSelection) p.rowSelection []
  expanded := resolveInitial (p.state.bind TableStateProp.expanded) p.expanded []
  columnOrder := resolveInitial (p.state.bind TableStateProp.columnOrder) p.columnOrder []
  columnPinning :=
    resolveInitial (p.state.bind TableStateProp.columnPinning) p.columnPinning ⟨[], []⟩
  grouping := resolveInitial (p.state.bind TableStateProp.grouping) p.grouping []

/-- Concrete state props where the grouped `state.sorting` and the legacy
`sorting` prop disagree, and `state.pagination.pageSize` and the legacy
`pageSize` prop disagree. -/
def conflictingStateProps : StateProps where
  state := some
    { sorting := some [{ id := "grouped", desc := false }]
      pagination := some { pageSize := some 25 } }
  sorting := some [{ id := "legacy", desc := true }]
  pageSize := some 50

/-- Concrete state props with only legacy value props. -/
def legacyOnlyStateProps : StateProps :=
  { sorting := some [{ id := "legacy", desc := true }], pageSize := some 50 }

/-- Concrete state props with no value sources at all. -/
def emptyStateProps : StateProps :=
  {}

/-! ### Server-side data fetching (src/hooks.ts, useServerSideData) -/

/-- The result object of a successful `fetchData` call:
`{data, pageCount, totalRowCount?}`. -/
structure FetchResult (TData : Type) where
  data : List TData
  pageCount : Int
  totalRowCount : Option Int := none
deriving DecidableEq

/-- The `serverOptions` argument of `useServerSideData` (src/types.ts,
`TableServer`), with the caller-supplied async `fetchData` modelled by the
outcome it produces on this call: `.ok` a result, or `.error` the thrown or
rejected error (as a string message). `hasFetchData` models the presence of
the `fetchData` field; `hasOnFetchError` the presence of `onFetchError`. -/
structure TableServerModel (TData : Type) where
  manualPagination : Option Bool := none
  manualSorting : Option Bool := none
  manualFiltering : Option Bool := none
  hasFetchData : Bool := true
  fetchOutcome : Except String (FetchResult TData)
  hasOnFetchError : Bool := false

/-- The state owned by `useServerSideData` (src/hooks.ts lines 304-308). -/
structure ServerDataState (TData : Type) where
  isLoading : Bool := false
  data : List TData := []
  pageCount : Int := 0
  totalRowCount : Int := 0
  error : Option String := none
deriving DecidableEq

/-- An error-callback invocation observable from `fetchData`: the hook-level
`onError` or the server-options `onFetchError`, with the error message. -/
inductive FetchEvent where
  | onErrorCall : String → FetchEvent
  | onFetchErrorCall : String → FetchEvent
deriving DecidableEq

/-- JavaScript truthiness of an optional boolean field. -/
def isTruthy (o : Option Bool) : Bool :=
  o.getD false

/-- One run of the `fetchData` callback of `useServerSideData` (src/hooks.ts
lines 310-361): skip without a fetch function; fetch when a manual flag or
`force` is set; on success store data, page count and (when present) total
row count; on failure store the error and invoke `onError` and
`onFetchError` when provided, without touching data, page count or total row
count; always clear `isLoading` at the end. The function is total: a failing
fetch never escapes as an exception. -/
def fetchDataStep (server : Option (TableServerModel TData)) (hasOnError force : Bool)
    (s : ServerDataState TData) : ServerDataState TData × List FetchEvent :=
  match server with
  | none => (s, [])
  | some so =>
    if !so.hasFetchData then (s, [])
    else if isTruthy so.manualPagination || isTruthy so.manualSorting
        || isTruthy so.manualFiltering || force then
      let s1 := { s with isLoading := true, error := none }
      match so.fetchOutcome with
      | .ok r =>
        let s2 := { s1 with data := r.data, pageCount := r.pageCount }
        let s3 := match r.totalRowCount with
          | some t => { s2 with totalRowCount := t }
          | none => s2
        ({ s3 with isLoading := false }, [])
      | .error e =>
        let s2 := { s1 with error := some e }
        ({ s2 with isLoading := false },
          (if hasOnError then [FetchEvent.onErrorCall e] else [])
            ++ (if so.hasOnFetchError then [FetchEvent.onFetchErrorCall e] else []))
    else (s, [])

/-- Concrete server options whose fetch fails. -/
def failingServer : TableServerModel Nat :=
  { manualPagination := some true, fetchOutcome := .error "network down", hasOnFetchError := true }

/-- Concrete last-known-good hook state before a failing fetch. -/
def lastGoodState : ServerDataState Nat :=
  { data := [7, 8, 9], pageCount := 3, totalRowCount := 30 }

/-! ### Shared lemmas -/

/-- A provided legacy prop always wins in one override step. -/
theorem legacyOverride_some (cur : Option Bool) (b : Bool) :
    legacyOverride cur (some b) = some b := rfl

/-- An absent legacy prop leaves the field alone in one override step. -/
theorem legacyOverride_none (cur : Option Bool) :
    legacyOverride cur none = cur := rfl

/-- A grouped source that is not nullish decides an `a ?? b ?? d` chain. -/
theorem resolveInitial_grouped (v : α) (l : Option α) (d : α) :
    resolveInitial (some v) l d = v := rfl

/-- With a nullish grouped source, a provided legacy source decides the
chain. -/
theorem resolveInitial_legacy (w d : α) :
    resolveInitial none (some w) d = w := rfl

/-- With both sources nullish, the built-in default decides the chain. -/
theorem resolveInitial_default (d : α) :
    resolveInitial none none d = d := rfl

/-! ### Claims about the feature-flag resolver -/

/-- Claim C1: for every feature field with a legacy flat prop, a legacy prop
that is not `undefined` decides the resolved flag, overriding both the
grouped features object and the built-in default. In particular grouped
`sorting: false` with legacy `enableSorting: true` resolves `sorting` to
`true`, and legacy `enablePagination: false` with an empty grouped object
resolves `pagination` to `false` despite the default `true`. -/
theorem extractFeatureFlags_legacy_wins (p : FeatureProps) :
    (∀ (f : FeatureField) (b : Bool), p.legacyGet f = some b →
      (extractFeatureFlags p).get f = some b) ∧
    (extractFeatureFlags legacySortingProps).sorting = some true ∧
    (extractFeatureFlags legacyPaginationProps).pagination = some false := by
  refine ⟨?_, rfl, rfl⟩
  intro f b h
  cases f <;>
    simp_all [FeatureProps.legacyGet, extractFeatureFlags, TableFeatures.get, legacyOverride]

/-- Witness for C1: at the configuration where every legacy prop is set and
the grouped object contradicts each of them, the twelve legacy-backed flags
all equal their legacy values. -/
theorem extractFeatureFlags_legacy_wins_witness :
    (extractFeatureFlags allLegacyProps).get .pagination = some false ∧
    (extractFeatureFlags allLegacyProps).get .sorting = some true ∧
    (extractFeatureFlags allLegacyProps).get .multiSort = some false ∧
    (extractFeatureFlags allLegacyProps).get .columnFilters = some true ∧
    (extractFeatureFlags allLegacyProps).get .globalFilter = some true ∧
    (extractFeatureFlags allLegacyProps).get .columnResizing = some true ∧
    (extractFeatureFlags allLegacyProps).get .rowSelection = some true ∧
    (extractFeatureFlags allLegacyProps).get .expanding = some true ∧
    (extractFeatureFlags allLegacyProps).get .pinning = some true ∧
    (extractFeatureFlags allLegacyProps).get .stickyHeader = some true ∧
    (extractFeatureFlags allLegacyProps).get .grouping = some true ∧
    (extractFeatureFlags allLegacyProps).get .sortingRemoval = some false :=
  ⟨(extractFeatureFlags_legacy_wins allLegacyProps).1 .pagination false rfl,
    (extractFeatureFlags_legacy_wins allLegacyProps).1 .sorting true rfl,
    (extractFeatureFlags_legacy_wins allLegacyProps).1 .multiSort false rfl,
    (extractFeatureFlags_legacy_wins allLegacyProps).1 .columnFilters true rfl,
    (extractFeatureFlags_legacy_wins allLegacyProps).1 .globalFilter true rfl,
    (extractFeatureFlags_legacy_wins allLegacyProps).1 .columnResizing true rfl,
    (extractFeatureFlags_legacy_wins allLegacyProps).1 .rowSelection true rfl,
    (extractFeatureFlags_legacy_wins allLegacyProps).1 .expanding true rfl,
    (extractFeatureFlags_legacy_wins allLegacyProps).1 .pinning true rfl,
    (extractFeatureFlags_legacy_wins allLegacyProps).1 .stickyHeader true rfl,
    (extractFeatureFlags_legacy_wins allLegacyProps).1 .grouping true rfl,
    (extractFeatureFlags_legacy_wins allLegacyProps).1 .sortingRemoval false rfl⟩

/-- Claim C2: a feature key present on the grouped object (even with value
`undefined`) overwrites the built-in default, and with no legacy prop the
grouped value is the resolved flag. Concretely: grouped `rowSelection: true`
resolves `rowSelection` to `true` although the default is `false`; a grouped
key explicitly set to `undefined` leaves the resolved flag `undefined`; a
legacy value rescues such an `undefined` flag. -/
theorem extractFeatureFlags_grouped_presence (p : FeatureProps) (g : GroupedFeatures) :
    (∀ (f : FeatureField) (v : Option Bool), p.features = some g → g.get f = some v →
      p.legacyGet f = none → (extractFeatureFlags p).get f = v) ∧
    (extractFeatureFlags groupedRowSelectionProps).rowSelection = some true ∧
    (extractFeatureFlags groupedUndefinedPaginationProps).pagination = none ∧
    (extractFeatureFlags rescuedPaginationProps).pagination = some true := by
  refine ⟨?_, rfl, rfl, rfl⟩
  intro f v hf hg hl
  cases f <;>
    simp_all [GroupedFeatures.get, FeatureProps.legacyGet, extractFeatureFlags,
      TableFeatures.get, applyGrouped, assignField, legacyOverride]

/-- Witness for C2: at grouped `rowSelection: true` with no legacy props, the
resolved `rowSelection` flag is the grouped value `true`. -/
theorem extractFeatureFlags_grouped_presence_witness :
    (extractFeatureFlags groupedRowSelectionProps).get .rowSelection = some true :=
  (extractFeatureFlags_grouped_presence groupedRowSelectionProps rowSelectionGrouped).1
    .rowSelection (some true) rfl rfl rfl

/-- Claim C9: the resolver consults no legacy prop for `columnOrdering`,
`formMode` and `virtualization`: those three flags depend only on the
grouped features object (so two configurations with the same grouped object
resolve them identically regardless of legacy props), default to `false`
when no grouped object is given, and otherwise are the grouped key falling
back to the default `false`. -/
theorem extractFeatureFlags_three_ignore_legacy (p q : FeatureProps) (g : GroupedFeatures) :
    (p.features = q.features →
      (extractFeatureFlags p).columnOrdering = (extractFeatureFlags q).columnOrdering ∧
      (extractFeatureFlags p).formMode = (extractFeatureFlags q).formMode ∧
      (extractFeatureFlags p).virtualization = (extractFeatureFlags q).virtualization) ∧
    (p.features = none →
      (extractFeatureFlags p).columnOrdering = some false ∧
      (extractFeatureFlags p).formMode = some false ∧
      (extractFeatureFlags p).virtualization = some false) ∧
    (p.features = some g →
      (extractFeatureFlags p).columnOrdering = assignField (some false) g.columnOrdering ∧
      (extractFeatureFlags p).formMode = assignField (some false) g.formMode ∧
      (extractFeatureFlags p).virtualization = assignField (some false) g.virtualization) := by
  refine ⟨fun h => ?_, fun h => ?_, fun h => ?_⟩ <;>
    simp [extractFeatureFlags, h, defaultFeatures, applyGrouped]

/-- Witness for C9: the configuration with every legacy prop set resolves the
three fields exactly as the configuration consisting of its grouped object
alone; the empty configuration resolves them to `false`; at the concrete
`rowSelection`-only grouped object they fall back to `false` too. -/
theorem extractFeatureFlags_three_ignore_legacy_witness :
    ((extractFeatureFlags groupedRowSelectionProps).columnOrdering =
        (extractFeatureFlags groupedRowSelectionProps).columnOrdering ∧
      (extractFeatureFlags groupedRowSelectionProps).formMode =
        (extractFeatureFlags groupedRowSelectionProps).formMode ∧
      (extractFeatureFlags groupedRowSelectionProps).virtualization =
        (extractFeatureFlags groupedRowSelectionProps).virtualization) ∧
    ((extractFeatureFlags emptyFeatureProps).columnOrdering = some false ∧
      (extractFeatureFlags emptyFeatureProps).formMode = some false ∧
      (extractFeatureFlags emptyFeatureProps).virtualization = some false) ∧
    ((extractFeatureFlags groupedRowSelectionProps).columnOrdering =
        assignField (some false) rowSelectionGrouped.columnOrdering ∧
      (extractFeatureFlags groupedRowSelectionProps).formMode =
        assignField (some false) rowSelectionGrouped.formMode ∧
      (extractFeatureFlags groupedRowSelectionProps).virtualization =
        assignField (some false) rowSelectionGrouped.virtualization) :=
  ⟨(extractFeatureFlags_three_ignore_legacy groupedRowSelectionProps
      groupedRowSelectionProps rowSelectionGrouped).1 rfl,
    (extractFeatureFlags_three_ignore_legacy emptyFeatureProps
      emptyFeatureProps rowSelectionGrouped).2.1 rfl,
    (extractFeatureFlags_three_ignore_legacy groupedRowSelectionProps
      groupedRowSelectionProps rowSelectionGrouped).2.2 rfl⟩

/-! ### Claims about ownership classification and dispatch -/

/-- Counterexample to claim C3 as stated: with both a grouped sorting callback
(identity 1) and a legacy sorting callback (identity 2) supplied, the
resolved handler — the one the classifier checks and dispatch invokes — is
not the legacy callback. -/
theorem resolvedHandler_not_legacy_counterexample :
    resolvedHandler bothSortingHandlers SliceName.sorting = some 1 ∧
    ¬ resolvedHandler bothSortingHandlers SliceName.sorting = some 2 := by
  decide

/-- Claim C3 (amended): a slice is controlled iff a non-null change callback
for it is supplied in the grouped `onStateChange` object or the legacy flat
prop; when both are supplied, the grouped callback takes precedence
(`props.onStateChange?.onXChange ?? props.onXChange`), the legacy callback
being used only when the grouped one is nullish; and the classification is
exactly the presence of that resolved callback, so no other signal affects
it. -/
theorem isControlledSlice_iff_callback (κ : Type) (p : HandlerProps κ) (s : SliceName) :
    (isControlledSlice p s = true ↔
      (groupedHandler p s).isSome = true ∨ (p.legacyGet s).isSome = true) ∧
    (∀ g, groupedHandler p s = some g → resolvedHandler p s = some g) ∧
    (groupedHandler p s = none → resolvedHandler p s = p.legacyGet s) ∧
    isControlledSlice p s = (resolvedHandler p s).isSome := by
  refine ⟨?_, ?_, ?_, rfl⟩
  · cases hg : groupedHandler p s <;>
      simp [isControlledSlice, resolvedHandler, hg, Option.orElse]
  · intro g hg
    simp [resolvedHandler, hg, Option.orElse]
  · intro hg
    simp [resolvedHandler, hg, Option.orElse]

/-- Witness for C3 (amended): with both sorting callbacks supplied the
resolved handler is the grouped identity 1; with only the legacy callback it
is the legacy identity 2. -/
theorem isControlledSlice_iff_callback_witness :
    resolvedHandler bothSortingHandlers SliceName.sorting = some 1 ∧
    resolvedHandler legacyOnlySortingHandlers SliceName.sorting = some 2 :=
  ⟨(isControlledSlice_iff_callback Nat bothSortingHandlers SliceName.sorting).2.1 1 rfl,
    (isControlledSlice_iff_callback Nat legacyOnlySortingHandlers SliceName.sorting).2.2.1 rfl⟩

/-- The store component of a controlled dispatch never changes. -/
theorem runDispatch_controlled_store (pv store : T) (u : Updater ε T) :
    (runDispatch true true pv store u).1 = store := by
  cases h : resolveUpdater u (currentSliceValue true pv store) <;>
    simp [runDispatch, hookDispatch, createControlledHandler, h, applyWrites]

/-- Claim C4: for a controlled slice (change callback supplied), no internal
store write occurs across any sequence of dispatches, and one dispatch whose
updater resolves to `nv` invokes the external callback with `nv` exactly
once while leaving the store untouched. -/
theorem controlled_dispatch_no_store_write (T ε : Type) (pv store : T)
    (us : List (Updater ε T)) :
    (runDispatches true true pv store us).1 = store ∧
    (∀ (u : Updater ε T) (nv : T),
      resolveUpdater u (currentSliceValue true pv store) = Except.ok nv →
      runDispatch true true pv store u = (store, [nv], none)) := by
  constructor
  · induction us generalizing store with
    | nil => rfl
    | cons u us ih => simp [runDispatches, runDispatch_controlled_store, ih]
  · intro u nv h
    simp [runDispatch, hookDispatch, createControlledHandler, h, applyWrites]

/-- Witness for C4: a controlled dispatch of the literal `7` on a store at `5`
reports `[7]` to the callback and leaves the store at `5`; a two-dispatch
sequence leaves the store at `5` as well. -/
theorem controlled_dispatch_no_store_write_witness :
    (runDispatches true true (0 : Nat) 5
      [(Updater.value 1 : Updater String Nat), Updater.value 2]).1 = 5 ∧
    runDispatch true true (0 : Nat) 5 (Updater.value 7 : Updater String Nat) =
      (5, [7], none) :=
  ⟨(controlled_dispatch_no_store_write Nat String 0 5
      [Updater.value 1, Updater.value 2]).1,
    (controlled_dispatch_no_store_write Nat String 0 5 []).2 (Updater.value 7) 7 rfl⟩

/-- Claim C5: for an uncontrolled slice, dispatching a literal value and then
reading the store returns that value; a callable updater is invoked with the
current store value and its result is stored; a non-callable updater is
itself the next value. Concretely, `prev => prev + 1` on a store at `5`
stores `6`. -/
theorem uncontrolled_dispatch_echo (T ε : Type) (pv store v1 : T) (f : T → T) :
    runDispatch false false pv store (Updater.value v1 : Updater ε T) = (v1, [], none) ∧
    runDispatch false false pv store (Updater.fn (fun t => Except.ok (f t)) : Updater ε T) =
      (f store, [], none) ∧
    runDispatch false false (0 : Nat) 5
      (Updater.fn (fun n => Except.ok (n + 1)) : Updater Unit Nat) = (6, [], none) := by
  refine ⟨?_, ?_, rfl⟩ <;>
    simp [runDispatch, hookDispatch, createControlledHandler, resolveUpdater,
      currentSliceValue, applyWrites]

/-- Claim C6: an updater that throws propagates its exception out of dispatch
and causes no state mutation: the store is identical to its pre-dispatch
value and no callback fires, because the write happens only after the
updater resolved successfully. -/
theorem dispatch_updater_throw_no_mutation (T ε : Type) (ic he : Bool) (pv store : T)
    (f : T → Except ε T) (e : ε) :
    f (currentSliceValue ic pv store) = Except.error e →
    runDispatch ic he pv store (Updater.fn f) = (store, [], some e) := by
  intro h
  simp [runDispatch, hookDispatch, createControlledHandler, resolveUpdater, h]

/-- Witness for C6: a throwing updater on an uncontrolled store at `5` leaves
the store at `5` and surfaces the error. -/
theorem dispatch_updater_throw_no_mutation_witness :
    runDispatch false false (0 : Nat) 5
      (Updater.fn fun _ => (Except.error "boom" : Except String Nat)) =
      (5, [], some "boom") :=
  dispatch_updater_throw_no_mutation Nat String false false 0 5
    (fun _ => Except.error "boom") "boom" rfl

/-- Claim C10: every successful dispatch performs exactly one routing action —
one external callback call or one internal store write, never both and never
neither; and in the degenerate case `isControlled = true` with no external
handler, the resolved value is routed to the internal store setter. -/
theorem createControlledHandler_one_route (T ε : Type) (ic he : Bool) (cur nv : T)
    (u : Updater ε T) (eff : DispatchEffects T) :
    (createControlledHandler ic he cur u = Except.ok eff →
      eff.externalCalls.length + eff.internalWrites.length = 1) ∧
    (resolveUpdater u cur = Except.ok nv →
      createControlledHandler true false cur u = Except.ok ⟨[], [nv]⟩) := by
  constructor
  · intro h
    cases hr : resolveUpdater u cur with
    | error e => simp [createControlledHandler, hr] at h
    | ok val =>
      simp only [createControlledHandler, hr] at h
      split at h <;> (injection h with h; subst h; rfl)
  · intro h
    simp [createControlledHandler, h]

/-- Witness for C10: dispatch of the literal `7` with `isControlled = true`
and no external handler writes `[7]` internally and performs one action. -/
theorem createControlledHandler_one_route_witness :
    (([] : List Nat).length + [(7 : Nat)].length = 1) ∧
    createControlledHandler true false (0 : Nat) (Updater.value 7 : Updater String Nat) =
      Except.ok ⟨[], [7]⟩ :=
  ⟨(createControlledHandler_one_route Nat String true false 0 7
      (Updater.value 7) ⟨[], [7]⟩).1 rfl,
    (createControlledHandler_one_route Nat String true false 0 7
      (Updater.value 7) ⟨[], [7]⟩).2 rfl⟩

/-! ### Claims about initial slice values and server-side fetching -/

/-- Counterexample to claim C7 as stated: when the grouped `state` field and
the legacy flat prop of a slice are both provided, the seeded initial value
is the grouped one, not the legacy one — for sorting the grouped entry wins
over the legacy entry and for page size the grouped 25 wins over the legacy
50. -/
theorem initialTableState_legacy_precedence_counterexample :
    (initialTableState conflictingStateProps).sorting = [{ id := "grouped", desc := false }] ∧
    ¬ (initialTableState conflictingStateProps).sorting = [{ id := "legacy", desc := true }] ∧
    (initialTableState conflictingStateProps).pageSize = 25 ∧
    ¬ (initialTableState conflictingStateProps).pageSize = 50 := by
  decide

/-- Claim C7 (amended): every slice's internal store is seeded by resolving
the three raw sources with grouped-state-first precedence — the grouped
`state` field, when not `undefined`, overrides the legacy flat value prop,
which when provided overrides the built-in default (`[]` for sorting, `10`
for page size, `0` for page index, and so on). This is `?? `-chaining, the
reverse of the legacy-wins precedence that §4.1 uses for feature flags. -/
theorem initialTableState_grouped_precedence (p : StateProps) :
    (∀ v, (p.state.bind TableStateProp.pagination).bind GroupedPagination.pageSize = some v →
      (initialTableState p).pageSize = v) ∧
    ((p.state.bind TableStateProp.pagination).bind GroupedPagination.pageSize = none →
      ∀ w, p.pageSize = some w → (initialTableState p).pageSize = w) ∧
    ((p.state.bind TableStateProp.pagination).bind GroupedPagination.pageSize = none →
      p.pageSize = none → (initialTableState p).pageSize = 10) ∧
    (∀ v, (p.state.bind TableStateProp.pagination).bind GroupedPagination.pageIndex = some v →
      (initialTableState p).pageIndex = v) ∧
    ((p.state.bind TableStateProp.pagination).bind GroupedPagination.pageIndex = none →
      ∀ w, p.pageIndex = some w → (initialTableState p).pageIndex = w) ∧
    ((p.state.bind TableStateProp.pagination).bind GroupedPagination.pageIndex = none →
      p.pageIndex = none → (initialTableState p).pageIndex = 0) ∧
    (∀ v, p.state.bind TableStateProp.sorting = some v → (initialTableState p).sorting = v) ∧
    (p.state.bind TableStateProp.sorting = none →
      ∀ w, p.sorting = some w → (initialTableState p).sorting = w) ∧
    (p.state.bind TableStateProp.sorting = none → p.sorting = none →
      (initialTableState p).sorting = []) ∧
    (∀ v, p.state.bind TableStateProp.columnFilters = some v →
      (initialTableState p).columnFilters = v) ∧
    (p.state.bind TableStateProp.columnFilters = none →
      ∀ w, p.columnFilters = some w → (initialTableState p).columnFilters = w) ∧
    (p.state.bind TableStateProp.columnFilters = none → p.columnFilters = none →
      (initialTableState p).columnFilters = []) ∧
    (∀ v, p.state.bind TableStateProp.globalFilter = some v →
      (initialTableState p).globalFilter = v) ∧
    (p.state.bind TableStateProp.globalFilter = none →
      ∀ w, p.globalFilter = some w → (initialTableState p).globalFilter = w) ∧
    (p.state.bind TableStateProp.globalFilter = none → p.globalFilter = none →
      (initialTableState p).globalFilter = "") ∧
    (∀ v, p.state.bind TableStateProp.columnVisibility = some v →
      (initialTableState p).columnVisibility = v) ∧
    (p.state.bind TableStateProp.columnVisibility = none →
      ∀ w, p.columnVisibility = some w → (initialTableState p).columnVisibility = w) ∧
    (p.state.bind TableStateProp.columnVisibility = none → p.columnVisibility = none →
      (initialTableState p).columnVisibility = []) ∧
    (∀ v, p.state.bind TableStateProp.rowSelection = some v →
      (initialTableState p).rowSelection = v) ∧
    (p.state.bind TableStateProp.rowSelection = none →
      ∀ w, p.rowSelection = some w → (initialTableState p).rowSelection = w) ∧
    (p.state.bind TableStateProp.rowSelection = none → p.rowSelection = none →
      (initialTableState p).rowSelection = []) ∧
    (∀ v, p.state.bind TableStateProp.expanded = some v →
      (initialTableState p).expanded = v) ∧
    (p.state.bind TableStateProp.expanded = none →
      ∀ w, p.expanded = some w → (initialTableState p).expanded = w) ∧
    (p.state.bind TableStateProp.expanded = none → p.expanded = none →
      (initialTableState p).expanded = []) ∧
    (∀ v, p.state.bind TableStateProp.columnOrder = some v →
      (initialTableState p).columnOrder = v) ∧
    (p.state.bind TableStateProp.columnOrder = none →
      ∀ w, p.columnOrder = some w → (initialTableState p).columnOrder = w) ∧
    (p.state.bind TableStateProp.columnOrder = none → p.columnOrder = none →
      (initialTableState p).columnOrder = []) ∧
    (∀ v, p.state.bind TableStateProp.columnPinning = some v →
      (initialTableState p).columnPinning = v) ∧
    (p.state.bind TableStateProp.columnPinning = none →
      ∀ w, p.columnPinning = some w → (initialTableState p).columnPinning = w) ∧
    (p.state.bind TableStateProp.columnPinning = none → p.columnPinning = none →
      (initialTableState p).columnPinning = ⟨[], []⟩) ∧
    (∀ v, p.state.bind TableStateProp.grouping = some v →
      (initialTableState p).grouping = v) ∧
    (p.state.bind TableStateProp.grouping = none →
      ∀ w, p.grouping = some w → (initialTableState p).grouping = w) ∧
    (p.state.bind TableStateProp.grouping = none → p.grouping = none →
      (initialTableState p).grouping = []) := by
  refine ⟨?_, ?_, ?_, ?_, ?_, ?_, ?_, ?_, ?_, ?_, ?_, ?_, ?_, ?_, ?_, ?_, ?_, ?_,
    ?_, ?_, ?_, ?_, ?_, ?_, ?_, ?_, ?_, ?_, ?_, ?_, ?_, ?_, ?_⟩ <;>
    intros <;>
    simp only [initialTableState, *, resolveInitial_grouped, resolveInitial_legacy,
      resolveInitial_default]

/-- Witness for C7 (amended): grouped sorting/page size win at the
conflicting configuration, legacy values win when the grouped state is
absent, and the defaults `[]`, `10`, `0` seed the empty configuration. -/
theorem initialTableState_grouped_precedence_witness :
    (initialTableState conflictingStateProps).sorting = [{ id := "grouped", desc := false }] ∧
    (initialTableState legacyOnlyStateProps).sorting = [{ id := "legacy", desc := true }] ∧
    (initialTableState emptyStateProps).sorting = [] ∧
    (initialTableState conflictingStateProps).pageSize = 25 ∧
    (initialTableState legacyOnlyStateProps).pageSize = 50 ∧
    (initialTableState emptyStateProps).pageSize = 10 ∧
    (initialTableState emptyStateProps).pageIndex = 0 :=
  ⟨(initialTableState_grouped_precedence conflictingStateProps).2.2.2.2.2.2.1 _ rfl,
    (initialTableState_grouped_precedence legacyOnlyStateProps).2.2.2.2.2.2.2.1 rfl _ rfl,
    (initialTableState_grouped_precedence emptyStateProps).2.2.2.2.2.2.2.2.1 rfl rfl,
    (initialTableState_grouped_precedence conflictingStateProps).1 _ rfl,
    (initialTableState_grouped_precedence legacyOnlyStateProps).2.1 rfl _ rfl,
    (initialTableState_grouped_precedence emptyStateProps).2.2.1 rfl rfl,
    (initialTableState_grouped_precedence emptyStateProps).2.2.2.2.2.1 rfl rfl⟩

/-- Claim C8: a failing external fetch is surfaced only through the explicit
error value and the `onError`/`onFetchError` callbacks when provided — the
step is a total function, so nothing is re-thrown across the reconciliation
boundary — and the previously fetched data, page count and total row count
keep their last-known-good values unchanged. -/
theorem fetch_failure_last_known_good (TData : Type) (so : TableServerModel TData)
    (hasOnError force : Bool) (s : ServerDataState TData) (e : String) :
    so.hasFetchData = true →
    so.fetchOutcome = Except.error e →
    (isTruthy so.manualPagination || isTruthy so.manualSorting
      || isTruthy so.manualFiltering || force) = true →
    fetchDataStep (some so) hasOnError force s =
      ({ s with isLoading := false, error := some e },
        (if hasOnError then [FetchEvent.onErrorCall e] else [])
          ++ (if so.hasOnFetchError then [FetchEvent.onFetchErrorCall e] else [])) := by
  intro h1 h2 h3
  simp [fetchDataStep, h1, h2, h3]

/-- Witness for C8: a failing fetch on the last-known-good state `[7, 8, 9]`,
page count 3, total 30 keeps all three values, records the error, and
invokes both error callbacks once. -/
theorem fetch_failure_last_known_good_witness :
    fetchDataStep (some failingServer) true false lastGoodState =
      ({ lastGoodState with isLoading := false, error := some "network down" },
        [FetchEvent.onErrorCall "network down", FetchEvent.onFetchErrorCall "network down"]) :=
  fetch_failure_last_known_good Nat failingServer true false lastGoodState
    "network down" rfl rfl rfl

end TableAdapter
